import Mathlib

/-!
Verification development for the client-side transactional coordinator of the
dingo-sdk repository (file sdk/transaction/txn_impl.cc).  The C++ code is
shallowly embedded: byte strings (std::string keys and values) become `List Nat`,
the mutation buffer becomes a sorted association list, and every stateful
operation becomes a pure function returning its result together with the list of
RPC events it emits.  A process abort (CHECK(false) / DINGO_LOG(FATAL)) is
modelled by returning `none`.
-/

namespace DingoSdk

/-- A C++ std::string viewed as a byte sequence. -/
abbrev Bytes := List Nat

/-- Byte-wise lexicographic strict order, as used by std::string comparison. -/
def bytesLt : Bytes → Bytes → Bool
  | [], [] => false
  | [], _ :: _ => true
  | _ :: _, [] => false
  | a :: as, b :: bs => if a < b then true else if b < a then false else bytesLt as bs

/-- Byte-wise lexicographic order, a <= b iff not (b < a). -/
def bytesLe (a b : Bytes) : Bool := !(bytesLt b a)

theorem bytesLt_irrefl (a : Bytes) : bytesLt a a = false := by
  induction a with
  | nil => rfl
  | cons x xs ih => simp [bytesLt, ih]

theorem bytesLt_ne {a b : Bytes} (h : bytesLt a b = true) : a ≠ b := by
  intro he
  subst he
  rw [bytesLt_irrefl] at h
  exact Bool.noConfusion h

/-- The three buffered mutation kinds (TxnMutationType in txn_buffer.h). -/
inductive TxnMutationType
  | kPut
  | kDelete
  | kPutIfAbsent
deriving DecidableEq, Repr

/-- One buffered mutation (TxnMutation): a kind with its key and value. -/
structure TxnMutation where
  type : TxnMutationType
  key : Bytes
  value : Bytes
deriving DecidableEq, Repr

/-- A key-value pair returned by reads and scans (KVPair). -/
structure KVPair where
  key : Bytes
  value : Bytes
deriving DecidableEq, Repr

/-- Status codes of the sdk Status type, restricted to the codes that appear on
the transaction paths embedded here. -/
inductive Status
  | ok
  | notFound
  | invalidArgument
  | illegalState
  | txnRolledBack
  | txnLockConflict
  | txnWriteConflict
  | txnNotFound
  | regionNotFound
  | transport
deriving DecidableEq, Repr

/-- Transaction states (TransactionState in txn_common.h); kRollbackted is the
spelling used by the source for the rolled-back state. -/
inductive TransactionState
  | kInit
  | kActive
  | kPreCommitting
  | kPreCommitted
  | kCommitting
  | kCommitted
  | kRollbacking
  | kRollbackted
deriving DecidableEq, Repr

/-- Modelled from the spec: the Write Buffer (TxnBuffer, spec section 4.1).  The
implementation file txn_buffer.cc is not part of the provided sources; per the
spec the buffer is a well-ordered map with at most one entry per key, kept in
ascending key order.  It is modelled as a key-sorted list of mutations. -/
abbrev TxnBuffer := List TxnMutation

/-- Modelled from the spec: sorted insert-or-overwrite into the buffer. -/
def bufferStore : TxnBuffer → TxnMutation → TxnBuffer
  | [], m => [m]
  | e :: es, m =>
    if m.key = e.key then m :: es
    else if bytesLt m.key e.key then m :: e :: es
    else e :: bufferStore es m

/-- Modelled from the spec: point lookup, the buffered entry for a key if any. -/
def TxnBuffer.Get : TxnBuffer → Bytes → Option TxnMutation
  | [], _ => none
  | e :: es, k => if e.key = k then some e else TxnBuffer.Get es k

/-- Modelled from the spec: put(key, value) inserts or overwrites with type Put. -/
def TxnBuffer.Put (b : TxnBuffer) (k v : Bytes) : TxnBuffer :=
  bufferStore b ⟨TxnMutationType.kPut, k, v⟩

/-- Modelled from the spec: delete(key) sets type Delete regardless of prior state. -/
def TxnBuffer.Delete (b : TxnBuffer) (k : Bytes) : TxnBuffer :=
  bufferStore b ⟨TxnMutationType.kDelete, k, []⟩

/-- Modelled from the spec: put_if_absent inserts as PutIfAbsent when the key is
absent, replaces a buffered Delete with a Put, and otherwise is a no-op. -/
def TxnBuffer.PutIfAbsent (b : TxnBuffer) (k v : Bytes) : TxnBuffer :=
  match b.Get k with
  | none => bufferStore b ⟨TxnMutationType.kPutIfAbsent, k, v⟩
  | some e =>
    match e.type with
    | TxnMutationType.kDelete => bufferStore b ⟨TxnMutationType.kPut, k, v⟩
    | _ => b

/-- Modelled from the spec: the ordered list of all buffered mutations. -/
def TxnBuffer.Mutations (b : TxnBuffer) : List TxnMutation := b

/-- Modelled from the spec: range lookup, the buffered entries with start <= key < end. -/
def TxnBuffer.Range (b : TxnBuffer) (s e : Bytes) : List TxnMutation :=
  b.filter (fun m => bytesLe s m.key && bytesLt m.key e)

/-- Modelled from the spec: the primary key is the key of the first (smallest)
buffered entry. -/
def TxnBuffer.GetPrimaryKey (b : TxnBuffer) : Bytes :=
  match b with
  | [] => []
  | e :: _ => e.key

/-- Modelled from the spec: whether the buffer is empty. -/
def TxnBuffer.IsEmpty (b : TxnBuffer) : Bool := b.isEmpty

/-- Modelled from the spec: the number of buffered mutations. -/
def TxnBuffer.MutationsSize (b : TxnBuffer) : Nat := b.length

/-- Well-formedness of the buffer: entries strictly sorted by key.  This is the
spec invariant "between any two operations the buffer is a well-ordered map". -/
def TxnBuffer.WF (b : TxnBuffer) : Prop :=
  b.Pairwise (fun x y => bytesLt x.key y.key = true)

theorem bufferStore_get_self (b : TxnBuffer) (m : TxnMutation) :
    (bufferStore b m).Get m.key = some m := by
  induction b with
  | nil => simp [bufferStore, TxnBuffer.Get]
  | cons e es ih =>
    by_cases h1 : m.key = e.key
    · simp [bufferStore, h1, TxnBuffer.Get]
    · by_cases h2 : bytesLt m.key e.key
      · simp [bufferStore, h1, h2, TxnBuffer.Get]
      · have h3 : ¬ (e.key = m.key) := fun h => h1 h.symm
        simp [bufferStore, h1, h2, TxnBuffer.Get, h3, ih]

/-- A region (shard) as seen through the routing cache: an id and a half-open
key range. -/
structure Region where
  region_id : Nat
  start_key : Bytes
  end_key : Bytes
deriving DecidableEq, Repr

/-- Modelled from the spec: the server-side region scanner used by Scan.  The
scanner implementation is not part of the provided sources; it is modelled as
the list of result batches still to be streamed for the amended sub-range of
one region.  HasMore is true while batches remain, NextBatch pops one batch. -/
structure RegionScanner where
  region : Region
  batches : List (List KVPair)
deriving DecidableEq, Repr

/-- The per-range scan cursor (ScanState in txn_impl.h). -/
structure ScanState where
  next_key : Bytes := []
  pending_kvs : List KVPair := []
  pending_offset : Nat := 0
  local_mutations : List TxnMutation := []
  scanner : Option RegionScanner := none
deriving DecidableEq, Repr

/-- Outcome of the inner do-while of ProcessScanState: either the merge goes on
with an updated mutations offset, or the limit was reached and the function
returns. -/
inductive MergeStep
  | cont (mo : Nat) (out : List KVPair)
  | stop (out : List KVPair)
deriving DecidableEq, Repr

/-- The do-while loop of ProcessScanState (txn_impl.cc lines 355-366): it is
entered when the server key is greater than the current buffered mutation key.
The C++ binds `mutation` by reference before the loop, so every iteration tests
the type of that same first mutation even though mutations_offset advances; a
PutIfAbsent emits the pair {std::move(kv.key), mutation.value}, after which
kv.key is the moved-from (empty, per libstdc++) string used by the loop
condition.  `rest` is the suffix of local_mutations starting at index mo + 1,
so the loop condition `mutations_offset < size && kv.key > key` becomes a match
on rest. -/
def processSkipLoop (m : TxnMutation) (limit : Nat) :
    List TxnMutation → Bytes → Nat → List KVPair → MergeStep
  | rest, kvkey, mo, out =>
    let pushed : Bytes × List KVPair :=
      if m.type = TxnMutationType.kPutIfAbsent
      then ([], out ++ [⟨kvkey, m.value⟩])
      else (kvkey, out)
    let mo2 := mo + 1
    if pushed.2.length = limit then MergeStep.stop pushed.2
    else
      match rest with
      | [] => MergeStep.cont mo2 pushed.2
      | m2 :: rest2 =>
        if bytesLt m2.key pushed.1
        then processSkipLoop m limit rest2 pushed.1 mo2 pushed.2
        else MergeStep.cont mo2 pushed.2

/-- The main merge loop of ProcessScanState (txn_impl.cc lines 325-372),
consuming the pending server kvs (given as the suffix from offset po, with po
carried along) against the local mutations from offset mo, appending to out.
Returns the new pending offset together with the output, or `none` for the
CHECK(false) abort that the source hits when a buffered PutIfAbsent has the
same key as a server entry (line 346). -/
def processLoop (muts : List TxnMutation) (limit : Nat) :
    List KVPair → Nat → Nat → List KVPair → Option (Nat × List KVPair)
  | [], po, _, out => some (po, out)
  | kv :: pend, po, mo, out =>
    let po2 := po + 1
    match muts[mo]? with
    | none =>
      let out2 := out ++ [kv]
      if out2.length = limit then some (po2, out2)
      else processLoop muts limit pend po2 mo out2
    | some m =>
      if kv.key = m.key then
        match m.type with
        | TxnMutationType.kDelete =>
          -- `continue` before ++mutations_offset: only the server cursor advances
          processLoop muts limit pend po2 mo out
        | TxnMutationType.kPut =>
          let out2 := out ++ [⟨kv.key, m.value⟩]
          if out2.length = limit then some (po2, out2)
          else processLoop muts limit pend po2 (mo + 1) out2
        | TxnMutationType.kPutIfAbsent =>
          -- CHECK(false) "unknow mutation type": process abort
          none
      else if bytesLt kv.key m.key then
        let out2 := out ++ [kv]
        if out2.length = limit then some (po2, out2)
        else processLoop muts limit pend po2 mo out2
      else
        match processSkipLoop m limit (muts.drop (mo + 1)) kv.key mo out with
        | MergeStep.stop out2 => some (po2, out2)
        | MergeStep.cont mo2 out2 =>
          if out2.length = limit then some (po2, out2)
          else processLoop muts limit pend po2 mo2 out2

/-- ProcessScanState (txn_impl.cc lines 322-375): merges the pending server kvs
of a scan cursor with its snapshot of local mutations, appending to the output
accumulated so far in this Scan call.  mutations_offset restarts at 0 on every
call, as in the source.  `none` models the CHECK(false) abort. -/
def ProcessScanState (s : ScanState) (limit : Nat) (out_kvs : List KVPair) :
    Option (ScanState × List KVPair) :=
  match processLoop s.local_mutations limit (s.pending_kvs.drop s.pending_offset)
      s.pending_offset 0 out_kvs with
  | none => none
  | some (po, out) => some ({ s with pending_offset := po }, out)

/-- Modelled from the spec: the Routing Cache (MetaCache, spec section 4.2),
viewed as the list of regions it currently knows. -/
structure MetaCache where
  regions : List Region
deriving DecidableEq, Repr

/-- Modelled from the spec: lookup_region_by_key, the region whose half-open
range contains the key. -/
def MetaCache.LookupRegionByKey (mc : MetaCache) (k : Bytes) : Option Region :=
  mc.regions.find? (fun r => bytesLe r.start_key k && bytesLt k r.end_key)

/-- Modelled from the spec: lookup_region_between, a region whose range overlaps
the half-open interval [s, e). -/
def MetaCache.LookupRegionBetweenRange (mc : MetaCache) (s e : Bytes) : Option Region :=
  mc.regions.find? (fun r => bytesLt r.start_key e && bytesLt s r.end_key)

/-- Modelled from the spec: the committed server-side content visible to the
scan, restricted to one half-open range, in key order. -/
def serverRange (server : List KVPair) (s e : Bytes) : List KVPair :=
  server.filter (fun kv => bytesLe s kv.key && bytesLt kv.key e)

/-- Modelled from the spec: NewRegionScanner over the amended range of a region;
it will stream one batch holding every visible kv of that range, or no batch at
all when the range is empty. -/
def NewRegionScanner (server : List KVPair) (region : Region) (s e : Bytes) : RegionScanner :=
  let kvs := serverRange server s e
  ⟨region, if kvs.isEmpty then [] else [kvs]⟩

/-- The world a Scan call runs against: the routing cache and the committed
server content. -/
structure ScanEnv where
  cache : MetaCache
  server : List KVPair
deriving DecidableEq, Repr

/-- The scan_states_ member of TxnImpl: cursors keyed by a byte string. -/
abbrev ScanStates := List (Bytes × ScanState)

def scanStatesFind (m : ScanStates) (k : Bytes) : Option ScanState :=
  (m.find? (fun e => e.1 = k)).map (·.2)

def scanStatesStore (m : ScanStates) (k : Bytes) (s : ScanState) : ScanStates :=
  match m with
  | [] => [(k, s)]
  | e :: es => if e.1 = k then (k, s) :: es else e :: scanStatesStore es k s

def scanStatesErase (m : ScanStates) (k : Bytes) : ScanStates :=
  m.filter (fun e => e.1 ≠ k)

/-- The key under which Scan stores the cursor of a range: the plain
concatenation start_key + end_key (txn_impl.cc line 400). -/
def scanStateKey (start_key end_key : Bytes) : Bytes := start_key ++ end_key

/-- Outcome of the inner scanner loop of Scan. -/
inductive InnerScanRes
  | crash
  | limitHit (st : ScanState) (out : List KVPair)
  | exhausted (st : ScanState) (out : List KVPair)
deriving DecidableEq, Repr

/-- The inner `while (scanner->HasMore())` loop of Scan (txn_impl.cc lines
456-480): stream batches from the current region scanner, merging each through
ProcessScanState, until the limit is hit or the scanner is exhausted. -/
def scanInnerGo (limit : Nat) (region : Region) :
    List (List KVPair) → ScanState → List KVPair → InnerScanRes
  | [], st, out => InnerScanRes.exhausted { st with scanner := some ⟨region, []⟩ } out
  | batch :: rest, st, out =>
    if batch.isEmpty then InnerScanRes.exhausted { st with scanner := some ⟨region, rest⟩ } out
    else
      let st1 : ScanState :=
        { st with pending_kvs := batch, pending_offset := 0, scanner := some ⟨region, rest⟩ }
      match ProcessScanState st1 limit out with
      | none => InnerScanRes.crash
      | some (st2, out2) =>
        let st3 := match out2.getLast? with
          | some kv => { st2 with next_key := kv.key }
          | none => st2
        if out2.length = limit then InnerScanRes.limitHit st3 out2
        else scanInnerGo limit region rest st3 out2

def scanInner (limit : Nat) (sc : RegionScanner) (st : ScanState) (out : List KVPair) :
    InnerScanRes :=
  scanInnerGo limit sc.region sc.batches st out

/-- Outcome of the outer scan loop: either a crash or a final cursor, output and
status, with `erase` telling whether the loop ran to completion (in which case
Scan drops the cursor from scan_states_). -/
inductive OuterScanRes
  | crash
  | done (st : ScanState) (out : List KVPair) (erase : Bool) (status : Status)
deriving DecidableEq, Repr

/-- The outer `while (scan_state.next_key < end_key)` loop of Scan (txn_impl.cc
lines 422-487).  Fuel bounds the number of iterations; every theorem below
instantiates it large enough that it is never exhausted (`crash` would result). -/
def scanOuter (env : ScanEnv) (end_key : Bytes) (limit : Nat) :
    Nat → ScanState → List KVPair → OuterScanRes
  | 0, _, _ => OuterScanRes.crash
  | fuel + 1, st, out =>
    if bytesLt st.next_key end_key then
      match st.scanner with
      | some sc =>
        match scanInner limit sc st out with
        | InnerScanRes.crash => OuterScanRes.crash
        | InnerScanRes.limitHit st2 out2 => OuterScanRes.done st2 out2 false Status.ok
        | InnerScanRes.exhausted st2 out2 =>
          scanOuter env end_key limit fuel
            { st2 with next_key := sc.region.end_key, scanner := none } out2
      | none =>
        match env.cache.LookupRegionBetweenRange st.next_key end_key with
        | none =>
          -- lookup NotFound: next_key = end_key; continue
          scanOuter env end_key limit fuel { st with next_key := end_key } out
        | some region =>
          let amend_start :=
            if bytesLe st.next_key region.start_key then region.start_key else st.next_key
          let amend_end :=
            if bytesLe end_key region.end_key then end_key else region.end_key
          let sc := NewRegionScanner env.server region amend_start amend_end
          match scanInner limit sc { st with scanner := some sc } out with
          | InnerScanRes.crash => OuterScanRes.crash
          | InnerScanRes.limitHit st2 out2 => OuterScanRes.done st2 out2 false Status.ok
          | InnerScanRes.exhausted st2 out2 =>
            scanOuter env end_key limit fuel
              { st2 with next_key := sc.region.end_key, scanner := none } out2
    else OuterScanRes.done st out true Status.ok

/-- Scan (txn_impl.cc lines 377-492).  Takes the current scan_states_ map and
returns the status, the kvs produced by this call, and the updated map.  `none`
models a process abort (a CHECK failure inside the merge) or fuel exhaustion of
the outer loop, which cannot occur at the instances proved below. -/
def TxnImplScan (env : ScanEnv) (buffer : TxnBuffer) (states : ScanStates)
    (start_key end_key : Bytes) (limit : Nat) :
    Option (Status × List KVPair × ScanStates) :=
  if start_key.isEmpty || end_key.isEmpty then some (Status.invalidArgument, [], states)
  else if !(bytesLt start_key end_key) then some (Status.invalidArgument, [], states)
  else
    match env.cache.LookupRegionBetweenRange start_key end_key with
    | none => some (Status.regionNotFound, [], states)
    | some _ =>
      let state_key := scanStateKey start_key end_key
      let st0 : ScanState :=
        match scanStatesFind states state_key with
        | some st => st
        | none =>
          { next_key := start_key, pending_kvs := [], pending_offset := 0,
            local_mutations := buffer.Range start_key end_key, scanner := none }
      let states1 := scanStatesStore states state_key st0
      -- leftover pending kvs of a resumed cursor are merged first (lines 411-419);
      -- the Bool records whether that block ran, since its early return at the
      -- limit only exists inside the block
      let afterPending : Option (Bool × ScanState × List KVPair) :=
        if st0.pending_offset < st0.pending_kvs.length then
          match ProcessScanState st0 limit [] with
          | none => none
          | some (st1, out1) =>
            let st2 := match out1.getLast? with
              | some kv => { st1 with next_key := kv.key }
              | none => st1
            some (true, st2, out1)
        else some (false, st0, [])
      match afterPending with
      | none => none
      | some (ranBlock, st2, out2) =>
        if ranBlock && out2.length = limit then
          some (Status.ok, out2, scanStatesStore states1 state_key st2)
        else
          match scanOuter env end_key limit (env.cache.regions.length + 3) st2 out2 with
          | OuterScanRes.crash => none
          | OuterScanRes.done st3 out3 erase status =>
            if erase then some (status, out3, scanStatesErase states1 state_key)
            else some (status, out3, scanStatesStore states1 state_key st3)

/-- Default of the gflag txn_op_max_retry: bound on per-sub-task retries. -/
def FLAGS_txn_op_max_retry : Nat := 3

/-- Default of the gflag txn_max_batch_count: mutations or keys per shard RPC. -/
def FLAGS_txn_max_batch_count : Nat := 1024

/-- INT64_MAX, the placeholder lock ttl set by PrepareTxnPrewriteRpc. -/
def INT64_MAX : Nat := 2 ^ 63 - 1

/-- The one case a server txn_result carries: lock conflict, write conflict, or
transaction not found. -/
inductive TxnResultCase
  | locked
  | writeConflict
  | txnNotFound
deriving DecidableEq, Repr

/-- The payload of a TxnPrewrite request built by PrepareTxnPrewriteRpc plus the
mutations added by the caller. -/
structure PrewriteRequest where
  region_id : Nat
  start_ts : Nat
  primary_lock : Bytes
  txn_size : Nat
  lock_ttl : Nat
  try_one_pc : Bool
  mutations : List TxnMutation
deriving DecidableEq, Repr

/-- The payload of a TxnCommit request built by PrepareTxnCommitRpc plus keys. -/
structure CommitRequest where
  region_id : Nat
  start_ts : Nat
  commit_ts : Nat
  keys : List Bytes
deriving DecidableEq, Repr

/-- The payload of a TxnBatchRollback request. -/
structure RollbackRequest where
  region_id : Nat
  start_ts : Nat
  keys : List Bytes
deriving DecidableEq, Repr

/-- A TxnPrewrite response: the repeated txn_result field. -/
structure TxnPrewriteResponse where
  txn_result : List TxnResultCase
deriving DecidableEq, Repr

/-- A TxnCommit response: the optional txn_result field. -/
structure TxnCommitResponse where
  txn_result : Option TxnResultCase
deriving DecidableEq, Repr

/-- A TxnBatchRollback response: the optional txn_result field. -/
structure TxnBatchRollbackResponse where
  txn_result : Option TxnResultCase
deriving DecidableEq, Repr

/-- A TxnGet response: the value (empty meaning absent) and optional txn_result. -/
structure TxnGetResponse where
  value : Bytes
  txn_result : Option TxnResultCase
deriving DecidableEq, Repr

/-- Externally visible events of a transaction operation: a timestamp
acquisition from the time oracle, or one RPC sent to a shard. -/
inductive RpcEvent
  | getTs
  | prewriteRpc (req : PrewriteRequest)
  | commitRpc (req : CommitRequest)
  | batchRollbackRpc (req : RollbackRequest)
  | getRpc (key : Bytes)
deriving DecidableEq, Repr

/-- Modelled from the spec: CheckTxnResultInfo (txn_common, not under the
provided sources) maps the one case a txn_result carries to a status. -/
def CheckTxnResultInfo : TxnResultCase → Status
  | TxnResultCase.locked => Status.txnLockConflict
  | TxnResultCase.writeConflict => Status.txnWriteConflict
  | TxnResultCase.txnNotFound => Status.txnNotFound

/-- The loop body of TryResolveTxnPrewriteLockConflict (txn_impl.cc lines
528-554).  `resolver` is the status the lock resolver returns for a resolve
attempt.  Note the source overwrites ret at every iteration, returns early only
on a write conflict, and keeps ret = TxnLockConflict when resolution succeeded
so that the caller retries. -/
def tryResolveLoop (resolver : Status) : List TxnResultCase → Status → Status
  | [], ret => ret
  | r :: rs, _ =>
    let ret := CheckTxnResultInfo r
    if ret = Status.ok then tryResolveLoop resolver rs ret
    else if ret = Status.txnLockConflict then
      let ret2 := if resolver = Status.ok then ret else resolver
      tryResolveLoop resolver rs ret2
    else if ret = Status.txnWriteConflict then ret
    else tryResolveLoop resolver rs ret

/-- TryResolveTxnPrewriteLockConflict over a whole prewrite response. -/
def TryResolveTxnPrewriteLockConflict (resolver : Status) (resp : TxnPrewriteResponse) :
    Status :=
  tryResolveLoop resolver resp.txn_result Status.ok

/-- The retry loop shared by PreCommitPrimaryKey (lines 579-604) and
ProcessTxnPrewriteSubTask (lines 613-639): send, resolve conflicts, retry up to
FLAGS_txn_op_max_retry times unless the status is OK or a write conflict.
`oracle i` is the response to the i-th send; the transport is modelled as
reliable.  Returns the final status and the number of sends.  The loop counter
`retry` of the source is carried here as the remaining budget: NeedRetryAndInc
succeeds while retry < FLAGS_txn_op_max_retry, i.e. while the budget
FLAGS_txn_op_max_retry - retry is nonzero. -/
def prewriteRetryLoop (oracle : Nat → TxnPrewriteResponse) (resolver : Status) :
    Nat → Nat → Status × Nat
  | budget, sent =>
    let resp := oracle sent
    let sent2 := sent + 1
    let ret := TryResolveTxnPrewriteLockConflict resolver resp
    if ret = Status.ok then (ret, sent2)
    else if ret = Status.txnWriteConflict then (ret, sent2)
    else
      match budget with
      | 0 => (ret, sent2)
      | b + 1 => prewriteRetryLoop oracle resolver b sent2

/-- The environment a prewrite / commit / rollback runs against: the routing
cache and response oracles.  Prewrite responses are indexed by the attempt
number of the sub-task; commit and rollback sends may also fail in transport,
modelled by the Except error. -/
structure TxnEnv where
  cache : MetaCache
  prewriteRespond : PrewriteRequest → Nat → TxnPrewriteResponse
  resolver : Status
  commitRespond : CommitRequest → Except Status TxnCommitResponse
  rollbackRespond : RollbackRequest → Except Status TxnBatchRollbackResponse

/-- The loop of IsOneRegionTxn over the buffered mutations, carrying the
region id seen so far with 0 as the unset sentinel. -/
def isOneRegionTxnGo (cache : MetaCache) : List TxnMutation → Nat → Bool
  | [], _ => true
  | m :: ms, region_id =>
    match cache.LookupRegionByKey m.key with
    | none => false
    | some r =>
      if region_id = 0 then isOneRegionTxnGo cache ms r.region_id
      else if region_id ≠ r.region_id then false
      else isOneRegionTxnGo cache ms region_id

/-- IsOneRegionTxn (txn_impl.cc lines 644-661): whether every buffered key
resolves to the same region. -/
def IsOneRegionTxn (cache : MetaCache) (buffer : TxnBuffer) : Bool :=
  isOneRegionTxnGo cache buffer.Mutations 0

/-- PreCommitPrimaryKey (txn_impl.cc lines 556-607): build one TxnPrewrite for
the primary key region, carrying the primary mutation and, when is_one_pc, all
other buffered mutations with try_one_pc set; then run the retry loop.  `none`
models the CHECK on the buffer lookup of the primary key. -/
def PreCommitPrimaryKey (env : TxnEnv) (buffer : TxnBuffer) (start_ts : Nat)
    (is_one_pc : Bool) : Option (Status × List RpcEvent) :=
  let pk := buffer.GetPrimaryKey
  match env.cache.LookupRegionByKey pk with
  | none => some (Status.regionNotFound, [])
  | some region =>
    match buffer.Get pk with
    | none => none
    | some pkMut =>
      let req : PrewriteRequest :=
        { region_id := region.region_id, start_ts := start_ts, primary_lock := pk,
          txn_size := buffer.MutationsSize, lock_ttl := INT64_MAX,
          try_one_pc := is_one_pc,
          mutations :=
            pkMut :: (if is_one_pc then (buffer.Mutations.filter (fun m => m.key ≠ pk)) else []) }
      let (st, n) := prewriteRetryLoop (env.prewriteRespond req) env.resolver FLAGS_txn_op_max_retry 0
      some (st, List.replicate n (RpcEvent.prewriteRpc req))

/-- Append a mutation to the group of its region, preserving first-seen region
order (the unordered_map of PreCommit, modelled with a stable order). -/
def addToGroup (gs : List (Region × List TxnMutation)) (r : Region) (m : TxnMutation) :
    List (Region × List TxnMutation) :=
  match gs with
  | [] => [(r, [m])]
  | (r0, ms) :: rest =>
    if r0.region_id = r.region_id then (r0, ms ++ [m]) :: rest
    else (r0, ms) :: addToGroup rest r m

/-- The grouping loop of PreCommit (lines 696-713): any lookup failure aborts. -/
def groupMutationsByRegion (cache : MetaCache) :
    List TxnMutation → List (Region × List TxnMutation) →
    Except Status (List (Region × List TxnMutation))
  | [], acc => Except.ok acc
  | m :: ms, acc =>
    match cache.LookupRegionByKey m.key with
    | none => Except.error Status.regionNotFound
    | some r => groupMutationsByRegion cache ms (addToGroup acc r m)

/-- The chunking pattern of PreCommit (lines 726-741) and Commit (lines
915-933): flush a batch whenever its size reaches n, then flush the nonempty
remainder. -/
def chunkBatch {α : Type} (n : Nat) (xs : List α) : List (List α) :=
  let step := xs.foldl
    (fun (acc : List (List α) × List α) x =>
      let cur := acc.2 ++ [x]
      if cur.length = n then (acc.1 ++ [cur], []) else (acc.1, cur))
    ([], [])
  if step.2.length > 0 then step.1 ++ [step.2] else step.1

/-- The secondary TxnPrewrite requests PreCommit fans out (lines 694-742). -/
def prewriteSecondaryRequests (cache : MetaCache) (buffer : TxnBuffer) (start_ts : Nat) :
    Except Status (List PrewriteRequest) :=
  let pk := buffer.GetPrimaryKey
  match groupMutationsByRegion cache (buffer.Mutations.filter (fun m => m.key ≠ pk)) [] with
  | Except.error s => Except.error s
  | Except.ok groups =>
    Except.ok <| groups.flatMap (fun g =>
      (chunkBatch FLAGS_txn_max_batch_count g.2).map (fun chunk =>
        { region_id := g.1.region_id, start_ts := start_ts, primary_lock := pk,
          txn_size := buffer.MutationsSize, lock_ttl := INT64_MAX,
          try_one_pc := false, mutations := chunk }))

/-- Run the parallel prewrite sub-tasks (ProcessTxnPrewriteSubTask, joined at
lines 747-762): each runs the retry loop; the first non-OK status in task order
becomes the result. -/
def runPrewriteSubTasks (env : TxnEnv) : List PrewriteRequest → Status × List RpcEvent
  | [] => (Status.ok, [])
  | req :: rest =>
    let (st, n) := prewriteRetryLoop (env.prewriteRespond req) env.resolver FLAGS_txn_op_max_retry 0
    let (strest, tr) := runPrewriteSubTasks env rest
    (if st ≠ Status.ok then st else strest,
     List.replicate n (RpcEvent.prewriteRpc req) ++ tr)

/-- PreCommit (txn_impl.cc lines 664-769).  Returns the status, the new
transaction state, the is_one_pc flag it computed, and the events emitted. -/
def PreCommit (env : TxnEnv) (buffer : TxnBuffer) (start_ts : Nat) :
    Option (Status × TransactionState × Bool × List RpcEvent) :=
  if buffer.IsEmpty then some (Status.ok, TransactionState.kPreCommitted, false, [])
  else
    let one_pc := IsOneRegionTxn env.cache buffer
    match PreCommitPrimaryKey env buffer start_ts one_pc with
    | none => none
    | some (st, trace) =>
      if st ≠ Status.ok then some (st, TransactionState.kPreCommitting, one_pc, trace)
      else if one_pc then some (Status.ok, TransactionState.kCommitted, one_pc, trace)
      else
        match prewriteSecondaryRequests env.cache buffer start_ts with
        | Except.error s => some (s, TransactionState.kPreCommitting, one_pc, trace)
        | Except.ok reqs =>
          let (result, tr2) := runPrewriteSubTasks env reqs
          if result = Status.ok then
            some (Status.ok, TransactionState.kPreCommitted, one_pc, trace ++ tr2)
          else some (result, TransactionState.kPreCommitting, one_pc, trace ++ tr2)

/-- ProcessTxnCommitResponse (txn_impl.cc lines 782-812).  A locked or
txn_not_found txn_result hits DINGO_LOG(FATAL), aborting the process (`none`);
a write_conflict is fatal too unless is_primary, where it means the transaction
was rolled back by someone else. -/
def ProcessTxnCommitResponse (resp : TxnCommitResponse) (is_primary : Bool) :
    Option Status :=
  match resp.txn_result with
  | none => some Status.ok
  | some TxnResultCase.locked => none
  | some TxnResultCase.txnNotFound => none
  | some TxnResultCase.writeConflict =>
    if is_primary then some Status.txnRolledBack else none

/-- Append a key to the group of its region, first-seen region order. -/
def addKeyToGroup (gs : List (Region × List Bytes)) (r : Region) (k : Bytes) :
    List (Region × List Bytes) :=
  match gs with
  | [] => [(r, [k])]
  | (r0, ks) :: rest =>
    if r0.region_id = r.region_id then (r0, ks ++ [k]) :: rest
    else (r0, ks) :: addKeyToGroup rest r k

/-- The secondary-key grouping loop of Commit (lines 884-905): a failed region
lookup skips the key (continue). -/
def groupCommitKeys (cache : MetaCache) :
    List TxnMutation → List (Region × List Bytes) → List (Region × List Bytes)
  | [], acc => acc
  | m :: ms, acc =>
    match cache.LookupRegionByKey m.key with
    | none => groupCommitKeys cache ms acc
    | some r => groupCommitKeys cache ms (addKeyToGroup acc r m.key)

/-- The secondary TxnCommit requests Commit fans out (lines 907-934). -/
def commitSecondaryRequests (cache : MetaCache) (buffer : TxnBuffer)
    (start_ts commit_ts : Nat) : List CommitRequest :=
  let pk := buffer.GetPrimaryKey
  let groups := groupCommitKeys cache (buffer.Mutations.filter (fun m => m.key ≠ pk)) []
  groups.flatMap (fun g =>
    (chunkBatch FLAGS_txn_max_batch_count g.2).map (fun chunk =>
      { region_id := g.1.region_id, start_ts := start_ts, commit_ts := commit_ts,
        keys := chunk }))

/-- The parallel secondary commit sub-tasks (ProcessTxnCommitSubTask, lines
832-846, joined and ignored at lines 940-950).  Every sub-task passes
is_primary = true to ProcessTxnCommitResponse; transport failures only set the
ignored sub-task status, but a locked or txn_not_found txn_result aborts the
process (`none`). -/
def runCommitSubTasks (env : TxnEnv) : List CommitRequest → Option (List RpcEvent)
  | [] => some []
  | req :: rest =>
    let ev := RpcEvent.commitRpc req
    match env.commitRespond req with
    | Except.error _ => (runCommitSubTasks env rest).map (fun tr => ev :: tr)
    | Except.ok resp =>
      match ProcessTxnCommitResponse resp true with
      | none => none
      | some _ => (runCommitSubTasks env rest).map (fun tr => ev :: tr)

/-- The TxnCommit request CommitPrimaryKey sends for the primary key (lines
822-824): the keys field holds exactly the primary key. -/
def primaryCommitRequest (region : Region) (buffer : TxnBuffer)
    (start_ts commit_ts : Nat) : CommitRequest :=
  { region_id := region.region_id, start_ts := start_ts, commit_ts := commit_ts,
    keys := [buffer.GetPrimaryKey] }

/-- Commit (txn_impl.cc lines 848-955), including CommitPrimaryKey (lines
814-830).  commit_ts is the timestamp the time oracle hands out for the getTs
event; the source CHECKs commit_ts > start_ts (`none` on violation).  Returns
status, new state and the emitted events. -/
def Commit (env : TxnEnv) (buffer : TxnBuffer) (start_ts commit_ts : Nat)
    (state : TransactionState) : Option (Status × TransactionState × List RpcEvent) :=
  if state = TransactionState.kCommitted then some (Status.ok, state, [])
  else if state ≠ TransactionState.kPreCommitted then some (Status.illegalState, state, [])
  else if buffer.IsEmpty then some (Status.ok, TransactionState.kCommitted, [])
  else
    if commit_ts ≤ start_ts then none
    else
      match env.cache.LookupRegionByKey buffer.GetPrimaryKey with
      | none => some (Status.regionNotFound, TransactionState.kCommitting, [RpcEvent.getTs])
      | some region =>
        let preq := primaryCommitRequest region buffer start_ts commit_ts
        let ev := [RpcEvent.getTs, RpcEvent.commitRpc preq]
        match env.commitRespond preq with
        | Except.error s => some (s, TransactionState.kCommitting, ev)
        | Except.ok resp =>
          match ProcessTxnCommitResponse resp true with
          | none => none
          | some ret =>
            if ret = Status.ok then
              let reqs := commitSecondaryRequests env.cache buffer start_ts commit_ts
              match runCommitSubTasks env reqs with
              | none => none
              | some tr => some (Status.ok, TransactionState.kCommitted, ev ++ tr)
            else if ret = Status.txnRolledBack then
              some (ret, TransactionState.kRollbackted, ev)
            else some (ret, TransactionState.kCommitting, ev)

/-- The secondary-key grouping of Rollback (lines 1055-1073): lookup failures
skip the key; one TxnBatchRollback per region, not chunked. -/
def rollbackSecondaryRequests (cache : MetaCache) (buffer : TxnBuffer)
    (start_ts : Nat) : List RollbackRequest :=
  let pk := buffer.GetPrimaryKey
  let groups := groupCommitKeys cache (buffer.Mutations.filter (fun m => m.key ≠ pk)) []
  groups.map (fun g => { region_id := g.1.region_id, start_ts := start_ts, keys := g.2 })

/-- The TxnBatchRollback request Rollback sends first (lines 1025-1033): the
primary key, followed by every other buffered key when the transaction ran the
one-phase-commit prewrite. -/
def primaryRollbackRequest (region : Region) (buffer : TxnBuffer) (start_ts : Nat)
    (is_one_pc : Bool) : RollbackRequest :=
  { region_id := region.region_id, start_ts := start_ts,
    keys := buffer.GetPrimaryKey :: (if is_one_pc
      then (buffer.Mutations.filter (fun m => m.key ≠ buffer.GetPrimaryKey)).map
        (fun m => m.key)
      else []) }

/-- Rollback (txn_impl.cc lines 1000-1110).  Secondary rollback statuses are
ignored (ProcessBatchRollbackSubTask never aborts), so only their events are
kept. -/
def Rollback (env : TxnEnv) (buffer : TxnBuffer) (start_ts : Nat) (is_one_pc : Bool)
    (state : TransactionState) : Option (Status × TransactionState × List RpcEvent) :=
  if state ≠ TransactionState.kRollbacking ∧ state ≠ TransactionState.kPreCommitting ∧
      state ≠ TransactionState.kPreCommitted then
    some (Status.illegalState, state, [])
  else
    match env.cache.LookupRegionByKey buffer.GetPrimaryKey with
    | none => some (Status.regionNotFound, TransactionState.kRollbacking, [])
    | some region =>
      let req := primaryRollbackRequest region buffer start_ts is_one_pc
      let ev := RpcEvent.batchRollbackRpc req
      match env.rollbackRespond req with
      | Except.error s => some (s, TransactionState.kRollbacking, [ev])
      | Except.ok resp =>
        if resp.txn_result = some TxnResultCase.locked then
          some (Status.txnLockConflict, TransactionState.kRollbacking, [ev])
        else if is_one_pc then some (Status.ok, TransactionState.kRollbackted, [ev])
        else
          let reqs := rollbackSecondaryRequests env.cache buffer start_ts
          some (Status.ok, TransactionState.kRollbackted,
                ev :: reqs.map RpcEvent.batchRollbackRpc)

/-- The environment a read runs against. -/
structure GetEnv where
  cache : MetaCache
  getRespond : Nat → TxnGetResponse
  resolver : Status

/-- The retry loop of DoTxnGet (txn_impl.cc lines 75-104).  On a lock conflict,
ret becomes the resolver status; note that when resolution succeeds but the
retry budget is exhausted the loop exits with ret = OK and the conflicted
response is then read for a value. -/
def doTxnGetLoop (oracle : Nat → TxnGetResponse) (resolver : Status) :
    Nat → Nat → Status × TxnGetResponse × Nat
  | budget, sent =>
    let resp := oracle sent
    let sent2 := sent + 1
    let ret := match resp.txn_result with
      | none => Status.ok
      | some r => CheckTxnResultInfo r
    if ret = Status.ok then (ret, resp, sent2)
    else if ret = Status.txnLockConflict then
      if resolver ≠ Status.ok then (resolver, resp, sent2)
      else
        match budget with
        | 0 => (resolver, resp, sent2)
        | b + 1 => doTxnGetLoop oracle resolver b sent2
    else (ret, resp, sent2)

/-- DoTxnGet (txn_impl.cc lines 65-116): the remote read issued when the key is
not buffered. -/
def DoTxnGet (env : GetEnv) (key : Bytes) : Status × Bytes × List RpcEvent :=
  match env.cache.LookupRegionByKey key with
  | none => (Status.regionNotFound, [], [])
  | some _ =>
    let (ret, resp, n) := doTxnGetLoop env.getRespond env.resolver FLAGS_txn_op_max_retry 0
    let evs := List.replicate n (RpcEvent.getRpc key)
    if ret = Status.ok then
      if resp.value.isEmpty then (Status.notFound, [], evs)
      else (Status.ok, resp.value, evs)
    else (ret, [], evs)

/-- Get (txn_impl.cc lines 118-138): buffer first; a buffered Put or PutIfAbsent
returns its value, a buffered Delete returns NotFound, otherwise the read goes
remote. -/
def TxnImplGet (env : GetEnv) (buffer : TxnBuffer) (key : Bytes) :
    Status × Bytes × List RpcEvent :=
  match buffer.Get key with
  | some m =>
    match m.type with
    | TxnMutationType.kPut => (Status.ok, m.value, [])
    | TxnMutationType.kDelete => (Status.notFound, [], [])
    | TxnMutationType.kPutIfAbsent => (Status.ok, m.value, [])
  | none => DoTxnGet env key


/- ### Concrete environments for the scenario theorems -/

/-- A single region covering keys from byte 97 to byte 122. -/
def oneRegionCache : MetaCache := ⟨[⟨1, [97], [122]⟩]⟩

/-- Two regions splitting at byte 108. -/
def twoRegionCache : MetaCache := ⟨[⟨1, [97], [108]⟩, ⟨2, [108], [122]⟩]⟩

/-- A conflict-free transaction environment over one region: every prewrite,
commit and rollback answers with an empty txn_result. -/
def cleanTxnEnv : TxnEnv :=
  ⟨oneRegionCache, fun _ _ => ⟨[]⟩, Status.ok,
   fun _ => Except.ok ⟨none⟩, fun _ => Except.ok ⟨none⟩⟩

/-- The buffer of scenario S1: two Puts whose keys live on the same shard. -/
def samplePairBuffer : TxnBuffer :=
  [⟨TxnMutationType.kPut, [107, 49], [118, 49]⟩,
   ⟨TxnMutationType.kPut, [107, 50], [118, 50]⟩]

/-- Two Puts on different shards of twoRegionCache; the primary is [107]. -/
def splitPairBuffer : TxnBuffer :=
  [⟨TxnMutationType.kPut, [107], [49]⟩, ⟨TxnMutationType.kPut, [109], [50]⟩]

/-- Primary commit succeeds, the secondary commit reports a locked txn_result. -/
def lockedSecondaryEnv : TxnEnv :=
  ⟨twoRegionCache, fun _ _ => ⟨[]⟩, Status.ok,
   fun req => if req.keys = [[107]] then Except.ok ⟨none⟩
     else Except.ok ⟨some TxnResultCase.locked⟩,
   fun _ => Except.ok ⟨none⟩⟩

/-- Primary commit succeeds, the secondary commit reports write_conflict. -/
def conflictSecondaryEnv : TxnEnv :=
  ⟨twoRegionCache, fun _ _ => ⟨[]⟩, Status.ok,
   fun req => if req.keys = [[107]] then Except.ok ⟨none⟩
     else Except.ok ⟨some TxnResultCase.writeConflict⟩,
   fun _ => Except.ok ⟨none⟩⟩

/-- Every commit reports write_conflict, in particular the primary one. -/
def primaryConflictEnv : TxnEnv :=
  ⟨oneRegionCache, fun _ _ => ⟨[]⟩, Status.ok,
   fun _ => Except.ok ⟨some TxnResultCase.writeConflict⟩, fun _ => Except.ok ⟨none⟩⟩

/-- Scenario S4: server holds a, c, d inside the single region. -/
def scanDemoEnv : ScanEnv :=
  ⟨oneRegionCache, [⟨[97], [65]⟩, ⟨[99], [67]⟩, ⟨[100], [68]⟩]⟩

/-- Scenario S4 buffer: put b -> B and delete c. -/
def scanDemoBuffer : TxnBuffer := (TxnBuffer.Put [] [98] [66]).Delete [99]

/-- A server holding the single pair (a, A). -/
def scanLimitEnv : ScanEnv := ⟨oneRegionCache, [⟨[97], [65]⟩]⟩

/-- One region [a, zz) holding a, aa and b, for the cursor-collision scenario. -/
def sharedCursorEnv : ScanEnv :=
  ⟨⟨[⟨1, [97], [122, 122]⟩]⟩, [⟨[97], [65]⟩, ⟨[97, 97], [66, 66]⟩, ⟨[98], [67]⟩]⟩

/-- A read environment whose remote side always answers empty. -/
def plainGetEnv : GetEnv := ⟨oneRegionCache, fun _ => ⟨[], none⟩, Status.ok⟩

/- ### Helper lemmas -/

theorem wf_filter_ne_primary (m : TxnMutation) (ms : List TxnMutation)
    (hwf : TxnBuffer.WF (m :: ms)) :
    List.filter (fun x => x.key ≠ m.key) ms = ms := by
  apply List.filter_eq_self.mpr
  intro x hx
  have h := (List.pairwise_cons.mp hwf).1 x hx
  have hne : x.key ≠ m.key := fun he => bytesLt_ne h he.symm
  simp [hne]

theorem runCommitSubTasks_total (env : TxnEnv) (reqs : List CommitRequest)
    (h : ∀ req ∈ reqs,
        (∃ s, env.commitRespond req = Except.error s)
        ∨ env.commitRespond req = Except.ok ⟨none⟩
        ∨ env.commitRespond req = Except.ok ⟨some TxnResultCase.writeConflict⟩) :
    ∃ tr, runCommitSubTasks env reqs = some tr := by
  induction reqs with
  | nil => exact ⟨[], rfl⟩
  | cons req rest ih =>
    obtain ⟨tr, htr⟩ := ih (fun r hr => h r (List.mem_cons_of_mem _ hr))
    rcases h req (List.mem_cons_self _ _) with ⟨s, hs⟩ | hs | hs <;>
      exact ⟨RpcEvent.commitRpc req :: tr,
        by simp [runCommitSubTasks, hs, htr, ProcessTxnCommitResponse]⟩

/- ### C1 -/

/-- C1: in the scan merge with equal keys, a buffered Put is emitted as
(s.key, b.value) with both cursors advanced, as the claim says; but a buffered
PutIfAbsent hits CHECK(false) and aborts the process instead of being emitted,
and a buffered Delete advances only the server cursor, so a later server key
greater than the Delete key is swallowed by the skip loop (here (d, D) is lost
although the claim implies it would be emitted). -/
theorem scan_merge_equal_key_behaviour :
    ProcessScanState ⟨[97], [⟨[97], [65]⟩], 0, [⟨TxnMutationType.kPut, [97], [86]⟩], none⟩ 10 []
      = some (⟨[97], [⟨[97], [65]⟩], 1, [⟨TxnMutationType.kPut, [97], [86]⟩], none⟩,
          [⟨[97], [86]⟩])
    ∧ ProcessScanState
        ⟨[97], [⟨[97], [65]⟩], 0, [⟨TxnMutationType.kPutIfAbsent, [97], [86]⟩], none⟩ 10 []
      = none
    ∧ ProcessScanState ⟨[], [⟨[99], [67]⟩, ⟨[100], [68]⟩], 0,
          [⟨TxnMutationType.kDelete, [99], []⟩, ⟨TxnMutationType.kPutIfAbsent, [101], [86]⟩],
          none⟩ 10 []
      = some (⟨[], [⟨[99], [67]⟩, ⟨[100], [68]⟩], 2,
          [⟨TxnMutationType.kDelete, [99], []⟩, ⟨TxnMutationType.kPutIfAbsent, [101], [86]⟩],
          none⟩, []) :=
  ⟨rfl, rfl, rfl⟩

/- ### C2 -/

/-- C2: scenario S4.  scan of [a, d) with limit 10, buffer {put b, delete c},
server {a, c, d}: the code returns only (a, A); the buffered put of b is never
emitted, although the claim expects [(a, A), (b, B)]. -/
theorem scan_smaller_buffered_key_lost :
    TxnImplScan scanDemoEnv scanDemoBuffer [] [97] [100] 10
      = some (Status.ok, [⟨[97], [65]⟩], [])
    ∧ ([⟨[97], [65]⟩] : List KVPair) ≠ [⟨[97], [65]⟩, ⟨[98], [66]⟩] :=
  ⟨rfl, by decide⟩

/- ### C9 -/

/-- C9: with limit 0 the scan returns one pair, so the returned length exceeds
the limit, contradicting the claim that at most L pairs come back. -/
theorem scan_limit_zero_exceeded :
    TxnImplScan scanLimitEnv [] [] [97] [100] 0 = some (Status.ok, [⟨[97], [65]⟩], [])
    ∧ 0 < ([⟨[97], [65]⟩] : List KVPair).length :=
  ⟨rfl, by decide⟩

/- ### C10 -/

/-- C10: scan cursors are keyed by the plain concatenation start + end, so the
distinct ranges (a, bc) and (ab, c) share one cursor: after Scan(a, bc, 1)
leaves a cursor behind, Scan(ab, c, 10) resumes it and returns (aa, AA) - a key
below its own start bound - while the same call on fresh state returns only
(b, C-value). -/
theorem scan_cursor_key_collision :
    (∀ s1 e1 s2 e2 : Bytes, s1 ++ e1 = s2 ++ e2 → scanStateKey s1 e1 = scanStateKey s2 e2)
    ∧ (([97], [98, 99]) ≠ (([97, 98] : Bytes), ([99] : Bytes)))
    ∧ scanStateKey [97] [98, 99] = scanStateKey [97, 98] [99]
    ∧ (∃ ss, TxnImplScan sharedCursorEnv [] [] [97] [98, 99] 1
          = some (Status.ok, [⟨[97], [65]⟩], ss)
        ∧ TxnImplScan sharedCursorEnv [] ss [97, 98] [99] 10
          = some (Status.ok, [⟨[97, 97], [66, 66]⟩, ⟨[98], [67]⟩], []))
    ∧ TxnImplScan sharedCursorEnv [] [] [97, 98] [99] 10
      = some (Status.ok, [⟨[98], [67]⟩], []) :=
  ⟨fun s1 e1 s2 e2 h => by simpa [scanStateKey] using h,
   by decide, rfl, ⟨_, rfl, rfl⟩, rfl⟩

theorem scan_cursor_key_collision_witness :
    scanStateKey [97] [98, 99] = scanStateKey [97, 98] [99] :=
  scan_cursor_key_collision.1 [97] [98, 99] [97, 98] [99] rfl

/- ### C3 -/

/-- C3: when every buffered key resolves to one region and the server accepts
the prewrite, pre_commit sends exactly one TxnPrewrite that carries all
buffered mutations with try_one_pc set, the state goes directly to Committed,
and the following commit() returns OK without any RPC or timestamp event. -/
theorem one_pc_precommit_single_prewrite (env : TxnEnv) (buffer : TxnBuffer)
    (start_ts : Nat) (hwf : TxnBuffer.WF buffer) (hne : buffer ≠ [])
    (hone : IsOneRegionTxn env.cache buffer = true)
    (hclean : ∀ req i, env.prewriteRespond req i = ⟨[]⟩) :
    ∃ req : PrewriteRequest,
      PreCommit env buffer start_ts
        = some (Status.ok, TransactionState.kCommitted, true, [RpcEvent.prewriteRpc req])
      ∧ req.try_one_pc = true
      ∧ req.mutations = buffer.Mutations
      ∧ ∀ commit_ts, Commit env buffer start_ts commit_ts TransactionState.kCommitted
          = some (Status.ok, TransactionState.kCommitted, []) := by
  obtain ⟨m, ms, rfl⟩ := List.exists_cons_of_ne_nil hne
  cases hl : env.cache.LookupRegionByKey m.key with
  | none =>
    exfalso
    unfold IsOneRegionTxn isOneRegionTxnGo at hone
    simp [TxnBuffer.Mutations, hl] at hone
  | some region =>
    have hget : TxnBuffer.Get (m :: ms) m.key = some m := by simp [TxnBuffer.Get]
    have hfil : List.filter (fun x => x.key ≠ m.key) (m :: ms) = ms := by
      have hall : ∀ a ∈ ms, a.key ≠ m.key := by
        intro a ha
        have h := (List.pairwise_cons.mp hwf).1 a ha
        exact fun he => bytesLt_ne h he.symm
      simp [List.filter_cons]
      exact hall
    refine ⟨{ region_id := region.region_id, start_ts := start_ts, primary_lock := m.key,
              txn_size := (m :: ms).length, lock_ttl := INT64_MAX, try_one_pc := true,
              mutations := m :: ms }, ?_, rfl, rfl, ?_⟩
    · simp only [PreCommit, TxnBuffer.IsEmpty, List.isEmpty_cons, hone, if_true,
        Bool.false_eq_true, if_false, PreCommitPrimaryKey, TxnBuffer.GetPrimaryKey, hl,
        hget, TxnBuffer.Mutations, TxnBuffer.MutationsSize, hfil]
      simp [prewriteRetryLoop, hclean, TryResolveTxnPrewriteLockConflict, tryResolveLoop,
        FLAGS_txn_op_max_retry]
    · intro commit_ts
      simp [Commit]

theorem one_pc_precommit_single_prewrite_witness :
    ∃ req : PrewriteRequest,
      PreCommit cleanTxnEnv samplePairBuffer 10
        = some (Status.ok, TransactionState.kCommitted, true, [RpcEvent.prewriteRpc req])
      ∧ req.try_one_pc = true
      ∧ req.mutations = samplePairBuffer.Mutations
      ∧ ∀ commit_ts, Commit cleanTxnEnv samplePairBuffer 10 commit_ts
          TransactionState.kCommitted
          = some (Status.ok, TransactionState.kCommitted, []) :=
  one_pc_precommit_single_prewrite cleanTxnEnv samplePairBuffer 10
    (by simp [TxnBuffer.WF, samplePairBuffer, List.pairwise_cons]; decide)
    (by decide) (by decide) (fun req i => rfl)

/- ### C4 -/

/-- C4: read-your-writes.  A put followed by a get on the same transaction
returns the value with no RPC; a delete followed by a get returns NotFound with
no RPC; a key buffered as PutIfAbsent also returns its buffered value with no
RPC. -/
theorem get_reads_buffer_first (env : GetEnv) (b : TxnBuffer) (k v : Bytes) :
    TxnImplGet env (b.Put k v) k = (Status.ok, v, [])
    ∧ TxnImplGet env (b.Delete k) k = (Status.notFound, [], [])
    ∧ ∀ m, b.Get k = some m → m.type = TxnMutationType.kPutIfAbsent →
        TxnImplGet env b k = (Status.ok, m.value, []) := by
  refine ⟨?_, ?_, ?_⟩
  · have h := bufferStore_get_self b ⟨TxnMutationType.kPut, k, v⟩
    simp [TxnImplGet, TxnBuffer.Put, h]
  · have h := bufferStore_get_self b ⟨TxnMutationType.kDelete, k, []⟩
    simp [TxnImplGet, TxnBuffer.Delete, h]
  · intro m hm ht
    simp [TxnImplGet, hm, ht]

theorem get_reads_buffer_first_witness :
    TxnImplGet plainGetEnv (TxnBuffer.Put [] [97] [49]) [97] = (Status.ok, [49], [])
    ∧ TxnImplGet plainGetEnv (TxnBuffer.Delete (TxnBuffer.Put [] [97] [49]) [97]) [97]
        = (Status.notFound, [], [])
    ∧ TxnImplGet plainGetEnv [⟨TxnMutationType.kPutIfAbsent, [97], [86]⟩] [97]
        = (Status.ok, [86], []) :=
  ⟨(get_reads_buffer_first plainGetEnv [] [97] [49]).1,
   (get_reads_buffer_first plainGetEnv (TxnBuffer.Put [] [97] [49]) [97] [50]).2.1,
   (get_reads_buffer_first plainGetEnv [⟨TxnMutationType.kPutIfAbsent, [97], [86]⟩] [97]
      [50]).2.2 ⟨TxnMutationType.kPutIfAbsent, [97], [86]⟩ rfl rfl⟩

/- ### C5 -/

/-- C5: commit() on a Committed transaction returns OK with no events at all
(no getTs, no RPC, unchanged state); from any state other than Committed or
PreCommitted it returns IllegalState, also without side effects. -/
theorem commit_idempotent_and_gated (env : TxnEnv) (buffer : TxnBuffer)
    (start_ts commit_ts : Nat) (state : TransactionState) :
    (state = TransactionState.kCommitted →
      Commit env buffer start_ts commit_ts state = some (Status.ok, state, []))
    ∧ (state ≠ TransactionState.kCommitted → state ≠ TransactionState.kPreCommitted →
      Commit env buffer start_ts commit_ts state = some (Status.illegalState, state, [])) := by
  constructor
  · intro h
    simp [Commit, h]
  · intro h1 h2
    simp [Commit, h1, h2]

theorem commit_idempotent_and_gated_witness :
    Commit cleanTxnEnv samplePairBuffer 10 20 TransactionState.kCommitted
      = some (Status.ok, TransactionState.kCommitted, [])
    ∧ Commit cleanTxnEnv samplePairBuffer 10 20 TransactionState.kActive
      = some (Status.illegalState, TransactionState.kActive, []) :=
  ⟨(commit_idempotent_and_gated cleanTxnEnv samplePairBuffer 10 20
      TransactionState.kCommitted).1 rfl,
   (commit_idempotent_and_gated cleanTxnEnv samplePairBuffer 10 20
      TransactionState.kActive).2 (by decide) (by decide)⟩

/- ### C6 -/

/-- C6: when the TxnCommit of the primary key reports write_conflict, commit()
moves the state to RolledBack and returns TxnRolledBack. -/
theorem commit_primary_conflict_rolls_back (env : TxnEnv) (buffer : TxnBuffer)
    (start_ts commit_ts : Nat) (region : Region)
    (hne : buffer ≠ []) (hts : start_ts < commit_ts)
    (hreg : env.cache.LookupRegionByKey buffer.GetPrimaryKey = some region)
    (hresp : env.commitRespond (primaryCommitRequest region buffer start_ts commit_ts)
        = Except.ok ⟨some TxnResultCase.writeConflict⟩) :
    Commit env buffer start_ts commit_ts TransactionState.kPreCommitted
      = some (Status.txnRolledBack, TransactionState.kRollbackted,
          [RpcEvent.getTs,
           RpcEvent.commitRpc (primaryCommitRequest region buffer start_ts commit_ts)]) := by
  obtain ⟨m, ms, rfl⟩ := List.exists_cons_of_ne_nil hne
  have hgt : ¬ (commit_ts ≤ start_ts) := by omega
  simp [Commit, TxnBuffer.IsEmpty, hgt, hreg, hresp, ProcessTxnCommitResponse]

theorem commit_primary_conflict_rolls_back_witness :
    Commit primaryConflictEnv samplePairBuffer 10 20 TransactionState.kPreCommitted
      = some (Status.txnRolledBack, TransactionState.kRollbackted,
          [RpcEvent.getTs,
           RpcEvent.commitRpc
             (primaryCommitRequest ⟨1, [97], [122]⟩ samplePairBuffer 10 20)]) :=
  commit_primary_conflict_rolls_back primaryConflictEnv samplePairBuffer 10 20
    ⟨1, [97], [122]⟩ (by decide) (by decide) rfl rfl

/- ### C7 -/

/-- C7 counterexample: the primary commit succeeds, a secondary TxnCommit
reports locked, and instead of logging and ignoring it the client aborts via
DINGO_LOG(FATAL) (ProcessTxnCommitSubTask runs ProcessTxnCommitResponse, whose
locked branch is fatal); commit() never returns OK with state Committed. -/
theorem commit_secondary_locked_aborts :
    Commit lockedSecondaryEnv splitPairBuffer 10 20 TransactionState.kPreCommitted = none
    ∧ (Commit lockedSecondaryEnv splitPairBuffer 10 20 TransactionState.kPreCommitted).isSome
      = false :=
  ⟨rfl, rfl⟩

/-- C7 amended: after the primary key commits, secondary TxnCommit sub-task
failures that are transport errors or write_conflict results are logged and
ignored - commit() still returns OK and the state stays Committed; locked and
txn_not_found results instead abort the process. -/
theorem commit_secondary_soft_failures_ignored (env : TxnEnv) (buffer : TxnBuffer)
    (start_ts commit_ts : Nat) (region : Region)
    (hne : buffer ≠ []) (hts : start_ts < commit_ts)
    (hreg : env.cache.LookupRegionByKey buffer.GetPrimaryKey = some region)
    (hprimary : env.commitRespond (primaryCommitRequest region buffer start_ts commit_ts)
        = Except.ok ⟨none⟩)
    (hsec : ∀ req ∈ commitSecondaryRequests env.cache buffer start_ts commit_ts,
        (∃ s, env.commitRespond req = Except.error s)
        ∨ env.commitRespond req = Except.ok ⟨none⟩
        ∨ env.commitRespond req = Except.ok ⟨some TxnResultCase.writeConflict⟩) :
    ∃ tr, Commit env buffer start_ts commit_ts TransactionState.kPreCommitted
        = some (Status.ok, TransactionState.kCommitted, tr) := by
  obtain ⟨tr, htr⟩ := runCommitSubTasks_total env _ hsec
  obtain ⟨m, ms, rfl⟩ := List.exists_cons_of_ne_nil hne
  have hgt : ¬ (commit_ts ≤ start_ts) := by omega
  refine ⟨RpcEvent.getTs
      :: RpcEvent.commitRpc (primaryCommitRequest region (m :: ms) start_ts commit_ts)
      :: tr, ?_⟩
  simp [Commit, TxnBuffer.IsEmpty, hgt, hreg, hprimary, ProcessTxnCommitResponse, htr]

theorem commit_secondary_soft_failures_ignored_witness :
    ∃ tr, Commit conflictSecondaryEnv splitPairBuffer 10 20 TransactionState.kPreCommitted
        = some (Status.ok, TransactionState.kCommitted, tr) :=
  commit_secondary_soft_failures_ignored conflictSecondaryEnv splitPairBuffer 10 20
    ⟨1, [97], [108]⟩ (by decide) (by decide) rfl rfl
    (by
      intro req hreq
      have hlist : commitSecondaryRequests conflictSecondaryEnv.cache splitPairBuffer 10 20
          = [⟨2, 10, 20, [[109]]⟩] := rfl
      rw [hlist] at hreq
      simp at hreq
      subst hreq
      right; right; rfl)

/- ### C8 -/

/-- C8: rollback() proceeds to send the primary-key TxnBatchRollback exactly in
the states PreCommitting, PreCommitted and RollingBack, and returns
IllegalState with no RPC from Init, Active, Committed and RolledBack. -/
theorem rollback_state_gate (env : TxnEnv) (buffer : TxnBuffer) (start_ts : Nat)
    (one_pc : Bool) (state : TransactionState) :
    ((state = TransactionState.kPreCommitting ∨ state = TransactionState.kPreCommitted ∨
        state = TransactionState.kRollbacking) →
      ∀ region, env.cache.LookupRegionByKey buffer.GetPrimaryKey = some region →
        ∃ res, Rollback env buffer start_ts one_pc state = some res
          ∧ res.2.2.head? = some (RpcEvent.batchRollbackRpc
              (primaryRollbackRequest region buffer start_ts one_pc))
          ∧ (primaryRollbackRequest region buffer start_ts one_pc).keys.head?
              = some buffer.GetPrimaryKey)
    ∧ ((state = TransactionState.kInit ∨ state = TransactionState.kActive ∨
        state = TransactionState.kCommitted ∨ state = TransactionState.kRollbackted) →
      Rollback env buffer start_ts one_pc state = some (Status.illegalState, state, [])) := by
  constructor
  · intro hs region hreg
    have hguard : ¬ (state ≠ TransactionState.kRollbacking ∧
        state ≠ TransactionState.kPreCommitting ∧ state ≠ TransactionState.kPreCommitted) := by
      rcases hs with h | h | h <;> subst h <;> simp
    cases hr : env.rollbackRespond (primaryRollbackRequest region buffer start_ts one_pc) with
    | error s =>
      exact ⟨(s, TransactionState.kRollbacking,
          [RpcEvent.batchRollbackRpc (primaryRollbackRequest region buffer start_ts one_pc)]),
        by simp [Rollback, hguard, hreg, hr], rfl, rfl⟩
    | ok resp =>
      by_cases hlk : resp.txn_result = some TxnResultCase.locked
      · exact ⟨(Status.txnLockConflict, TransactionState.kRollbacking,
            [RpcEvent.batchRollbackRpc (primaryRollbackRequest region buffer start_ts one_pc)]),
          by simp [Rollback, hguard, hreg, hr, hlk], rfl, rfl⟩
      · cases hop : one_pc with
        | true =>
          rw [hop] at hr
          exact ⟨(Status.ok, TransactionState.kRollbackted,
              [RpcEvent.batchRollbackRpc (primaryRollbackRequest region buffer start_ts true)]),
            by simp [Rollback, hguard, hreg, hr, hlk], rfl, rfl⟩
        | false =>
          rw [hop] at hr
          exact ⟨(Status.ok, TransactionState.kRollbackted,
              RpcEvent.batchRollbackRpc (primaryRollbackRequest region buffer start_ts false)
                :: (rollbackSecondaryRequests env.cache buffer start_ts).map
                     RpcEvent.batchRollbackRpc),
            by simp [Rollback, hguard, hreg, hr, hlk], rfl, rfl⟩
  · intro hs
    have h1 : state ≠ TransactionState.kRollbacking := by
      rcases hs with h | h | h | h <;> subst h <;> simp
    have h2 : state ≠ TransactionState.kPreCommitting := by
      rcases hs with h | h | h | h <;> subst h <;> simp
    have h3 : state ≠ TransactionState.kPreCommitted := by
      rcases hs with h | h | h | h <;> subst h <;> simp
    simp [Rollback, h1, h2, h3]

theorem rollback_state_gate_witness :
    (∃ res, Rollback cleanTxnEnv samplePairBuffer 10 false TransactionState.kPreCommitted
        = some res
      ∧ res.2.2.head? = some (RpcEvent.batchRollbackRpc
          (primaryRollbackRequest ⟨1, [97], [122]⟩ samplePairBuffer 10 false))
      ∧ (primaryRollbackRequest ⟨1, [97], [122]⟩ samplePairBuffer 10 false).keys.head?
          = some samplePairBuffer.GetPrimaryKey)
    ∧ Rollback cleanTxnEnv samplePairBuffer 10 false TransactionState.kActive
      = some (Status.illegalState, TransactionState.kActive, []) :=
  ⟨(rollback_state_gate cleanTxnEnv samplePairBuffer 10 false
      TransactionState.kPreCommitted).1 (Or.inr (Or.inl rfl)) ⟨1, [97], [122]⟩ rfl,
   (rollback_state_gate cleanTxnEnv samplePairBuffer 10 false
      TransactionState.kActive).2 (Or.inr (Or.inl rfl))⟩


end DingoSdk
